import Mathlib

/-!
Shallow embedding of the receivables dashboard core (`recev.py`).

Modelling conventions:
* Monetary amounts are rationals (`ℚ`); the identities claimed by the spec
  are exact over `ℚ`, which the Python floats approximate.
* Dates are integers in `yyyymmdd` form (e.g. `20230401`); comparison of
  such integers agrees with calendar order, which is all the code uses.
* A pandas left merge of payments against invoices on `Invoice ID` is the
  list of pairs `(payment, some invoice)` for each matching invoice, or
  `(payment, none)` when no invoice matches (the merged columns are NaN);
  a NaN group key is dropped by `groupby`, and a NaN date fails every
  comparison, which the embedding renders as the `none` cases below.
* `groupby(...).sum()` followed by alignment/`fillna(0)` is rendered as
  a filtered sum per key (a key absent from a slice sums over `[]`, i.e. 0).
-/

namespace Recev

/-- An invoice record (sheet `Invoices`): Invoice ID, Customer ID,
Customer Name, Company Name, Branch, Invoice Date, Due Date (possibly
missing), Total Amount, and the revenue breakdown. -/
structure Invoice where
  invoiceId : Nat
  customerId : String
  customerName : String
  companyName : String
  branch : String
  invoiceDate : Int
  dueDate : Option Int
  totalAmount : ℚ
  machineRevenue : ℚ
  partsRevenue : ℚ
  serviceRevenue : ℚ
deriving Repr, DecidableEq

/-- A payment record (sheet `Payments`): Payment ID, Invoice ID (may dangle),
Payment Date, Payment Amount. -/
structure Payment where
  paymentId : Nat
  invoiceId : Nat
  paymentDate : Int
  amount : ℚ
deriving Repr, DecidableEq

/-- Sum of `f` over a list (a pandas column sum; sum of an empty slice is 0). -/
def sumBy {α : Type} (xs : List α) (f : α → ℚ) : ℚ :=
  (xs.map f).sum

/-- Payment Aggregator (recev.py lines 53-58): total payments against one
invoice with payment date up to the cutoff; an invoice with no payments
gets the `fillna(0.0)` default, i.e. the empty sum. -/
def paidToDate (pays : List Payment) (cutoff : Int) (invId : Nat) : ℚ :=
  sumBy (pays.filter fun p => p.invoiceId == invId && decide (p.paymentDate ≤ cutoff)) (fun p => p.amount)

/-- Outstanding (recev.py line 59): `Total Amount - PaidToDate`. -/
def invOutstanding (pays : List Payment) (today : Int) (inv : Invoice) : ℚ :=
  inv.totalAmount - paidToDate pays today inv.invoiceId

/-- Days past due (recev.py lines 68-70): `today - Due Date`, with a missing
due date filled with 0 (`.fillna(0)`). -/
def daysPastDue (today : Int) (due : Option Int) : Int :=
  match due with
  | some d => today - d
  | none => 0

/-- Aging Classifier `aging_bucket` (recev.py lines 72-82), translated
branch by branch. -/
def aging_bucket (days : Int) : String :=
  if days ≤ 0 then "Current"
  else if days ≤ 30 then "1-30 Days"
  else if days ≤ 60 then "31-60 Days"
  else if days ≤ 90 then "61-90 Days"
  else "90+ Days"

/-- Aging bucket of an invoice (recev.py line 84). -/
def invBucket (today : Int) (inv : Invoice) : String :=
  aging_bucket (daysPastDue today inv.dueDate)

/-- Proportional Allocator `distribute_partial_payments`
(recev.py lines 87-108): per-line share of the invoice total, payment
allocated by share, outstanding per line; when `total_inv <= 0` the raw
revenue triple is returned unchanged. -/
def distributePartPayments (totalInv paid m p s : ℚ) : ℚ × ℚ × ℚ :=
  if totalInv ≤ 0 then (m, p, s)
  else (m - paid * (m / totalInv), p - paid * (p / totalInv), s - paid * (s / totalInv))

/-- Line allocation of an invoice (recev.py lines 110-112): the allocator
applied to the invoice row with `paid = PaidToDate`. -/
def invAlloc (pays : List Payment) (today : Int) (inv : Invoice) : ℚ × ℚ × ℚ :=
  distributePartPayments inv.totalAmount (paidToDate pays today inv.invoiceId)
    inv.machineRevenue inv.partsRevenue inv.serviceRevenue

/-- Left merge of payments against invoices on `Invoice ID`
(recev.py lines 209-213, 266-270, 355-359): each payment is paired with
every matching invoice, or with `none` when no invoice matches (the merged
invoice columns are then NaN). -/
def mergedPayments (invs : List Invoice) (pays : List Payment) : List (Payment × Option Invoice) :=
  pays.flatMap fun p =>
    match invs.filter (fun i => i.invoiceId == p.invoiceId) with
    | [] => [(p, none)]
    | ms => ms.map fun i => (p, some i)

/-- Customer name carried by a merged payment row; `none` is the NaN an
orphaned payment gets from the left merge. -/
def paymentCustomer (pi : Payment × Option Invoice) : Option String :=
  match pi.2 with
  | some i => some i.customerName
  | none => none

/-- Sort a list of strings lexicographically, as Python `sorted` does
(recev.py line 236). -/
def sortStrings (xs : List String) : List String :=
  List.insertionSort (· ≤ ·) xs

/-! ### Receivables report (recev.py lines 45-202) -/

/-- Grouping choice offered by the sidebar (recev.py lines 115-120, 621):
`Grand Total` means no grouping; `Branch Wise Details` groups by the
`Branch` column; the other options name an invoice column directly. -/
inductive GroupBy where
  | grandTotal
  | customerId
  | companyName
  | customerName
  | branchWise
deriving Repr, DecidableEq

/-- The invoice column a grouping choice selects, `none` for `Grand Total`
(recev.py lines 115-120). -/
def groupKey : GroupBy → Option (Invoice → String)
  | .grandTotal => none
  | .customerId => some (fun i => i.customerId)
  | .companyName => some (fun i => i.companyName)
  | .customerName => some (fun i => i.customerName)
  | .branchWise => some (fun i => i.branch)

/-- One row of the receivables report, in the fixed column order of
recev.py lines 188-199. -/
structure RecRow where
  group : String
  totalOS : ℚ
  current : ℚ
  d1_30 : ℚ
  d31_60 : ℚ
  d61_90 : ℚ
  d90plus : ℚ
  machineOS : ℚ
  partsOS : ℚ
  serviceOS : ℚ
deriving Repr, DecidableEq

/-- One cell of the aging pivot (recev.py lines 132-148): outstanding summed
over the group's invoices classified into bucket `b`; a bucket with no
invoices is the `fill_value=0` default, i.e. the empty sum. -/
def bucketSum (pays : List Payment) (today : Int) (grp : List Invoice) (b : String) : ℚ :=
  sumBy (grp.filter fun i => invBucket today i == b) (invOutstanding pays today)

/-- Assemble one receivables row for a group of invoices
(recev.py lines 122-176): Total OS, the five aging cells, and the three
line-OS sums. -/
def mkRecRow (pays : List Payment) (today : Int) (g : String) (grp : List Invoice) : RecRow :=
  { group := g
    totalOS := sumBy grp (invOutstanding pays today)
    current := bucketSum pays today grp "Current"
    d1_30 := bucketSum pays today grp "1-30 Days"
    d31_60 := bucketSum pays today grp "31-60 Days"
    d61_90 := bucketSum pays today grp "61-90 Days"
    d90plus := bucketSum pays today grp "90+ Days"
    machineOS := sumBy grp (fun i => (invAlloc pays today i).1)
    partsOS := sumBy grp (fun i => (invAlloc pays today i).2.1)
    serviceOS := sumBy grp (fun i => (invAlloc pays today i).2.2) }

/-- Invoices passing the inclusive invoice-date filter
(recev.py lines 62-65). -/
def filterInvoicesByDate (invs : List Invoice) (fromD toD : Int) : List Invoice :=
  invs.filter fun i => decide (fromD ≤ i.invoiceDate) && decide (i.invoiceDate ≤ toD)

/-- Receivables Report Generator `create_receivables_report`
(recev.py lines 45-202): filter by invoice date, then either one synthetic
`Grand Total` row, or one row per group key value; `groupby` emits the
sorted distinct keys. -/
def create_receivables_report (invs : List Invoice) (pays : List Payment)
    (fromD toD today : Int) (gb : GroupBy) : List RecRow :=
  let filtered := filterInvoicesByDate invs fromD toD
  match groupKey gb with
  | none => [mkRecRow pays today "Grand Total" filtered]
  | some key =>
    (sortStrings (filtered.map key).dedup).map fun g =>
      mkRecRow pays today g (filtered.filter fun i => key i == g)

/-! ### Banker report (recev.py lines 205-259) -/

/-- One row of the banker report, in the column order of
recev.py lines 251-257. -/
structure BankerRow where
  customerName : String
  openingBalance : ℚ
  debits : ℚ
  credits : ℚ
  balance : ℚ
deriving Repr, DecidableEq

/-- Invoice totals before the window, summed for one customer
(recev.py lines 215, 227: `InvBefore`). -/
def invBeforeSum (invs : List Invoice) (fromD : Int) (c : String) : ℚ :=
  sumBy ((invs.filter fun i => decide (i.invoiceDate < fromD)).filter
    fun i => i.customerName == c) (fun i => i.totalAmount)

/-- Payment amounts before the window, summed for one customer of the
merged payments (recev.py lines 216, 228: `PayBefore`); an orphaned
payment has a NaN customer and is dropped by `groupby`. -/
def payBeforeSum (invs : List Invoice) (pays : List Payment) (fromD : Int) (c : String) : ℚ :=
  sumBy (((mergedPayments invs pays).filter fun pi => decide (pi.1.paymentDate < fromD)).filter
    fun pi => paymentCustomer pi == some c) (fun pi => pi.1.amount)

/-- Invoice totals inside the window, summed for one customer
(recev.py lines 218-221, 230: `InvRange`). -/
def invRangeSum (invs : List Invoice) (fromD toD : Int) (c : String) : ℚ :=
  sumBy ((filterInvoicesByDate invs fromD toD).filter
    fun i => i.customerName == c) (fun i => i.totalAmount)

/-- Payment amounts inside the window, summed for one customer of the
merged payments (recev.py lines 222-225, 231: `PayRange`). -/
def payRangeSum (invs : List Invoice) (pays : List Payment) (fromD toD : Int) (c : String) : ℚ :=
  sumBy (((mergedPayments invs pays).filter fun pi =>
      decide (fromD ≤ pi.1.paymentDate) && decide (pi.1.paymentDate ≤ toD)).filter
    fun pi => paymentCustomer pi == some c) (fun pi => pi.1.amount)

/-- Customers of the banker report (recev.py lines 233-236): the union of
the customers appearing in the four slices, sorted. -/
def bankerCustomers (invs : List Invoice) (pays : List Payment) (fromD toD : Int) : List String :=
  let merged := mergedPayments invs pays
  let names :=
    (invs.filter fun i => decide (i.invoiceDate < fromD)).map (fun i => i.customerName)
    ++ ((merged.filter fun pi => decide (pi.1.paymentDate < fromD)).filterMap paymentCustomer)
    ++ (filterInvoicesByDate invs fromD toD).map (fun i => i.customerName)
    ++ ((merged.filter fun pi =>
        decide (fromD ≤ pi.1.paymentDate) && decide (pi.1.paymentDate ≤ toD)).filterMap paymentCustomer)
  sortStrings names.dedup

/-- Banker row of one customer (recev.py lines 238-246): each slice aligned
by customer with `fillna(0.0)`, opening balance and balance by the formulas
of lines 245-246. -/
def bankerRowFor (invs : List Invoice) (pays : List Payment)
    (fromD toD : Int) (c : String) : BankerRow :=
  { customerName := c
    openingBalance := invBeforeSum invs fromD c - payBeforeSum invs pays fromD c
    debits := invRangeSum invs fromD toD c
    credits := payRangeSum invs pays fromD toD c
    balance := (invBeforeSum invs fromD c - payBeforeSum invs pays fromD c)
      + invRangeSum invs fromD toD c - payRangeSum invs pays fromD toD c }

/-- Banker Balance Calculator `create_banker_report`
(recev.py lines 205-259): one row per customer of the sorted union. -/
def create_banker_report (invs : List Invoice) (pays : List Payment)
    (fromD toD : Int) : List BankerRow :=
  (bankerCustomers invs pays fromD toD).map (bankerRowFor invs pays fromD toD)

/-! ### Customer ledger (recev.py lines 262-328) -/

/-- One ledger event before running balance is attached
(recev.py lines 284-302): date, transaction label, debit and credit. -/
structure LedgerEvent where
  date : Int
  txnType : String
  debits : ℚ
  credits : ℚ
deriving Repr, DecidableEq

/-- One output row of the customer ledger (recev.py line 327); the date is
kept numeric here, its `dd/mm/yyyy` rendering being presentation only. -/
structure LedgerRow where
  date : Int
  txnType : String
  debits : ℚ
  credits : ℚ
  runningBalance : ℚ
deriving Repr, DecidableEq

/-- Ledger events for one customer and window (recev.py lines 272-305):
a debit event per invoice in range, a credit event per merged payment in
range, sorted by date. -/
def ledgerEvents (invs : List Invoice) (pays : List Payment)
    (fromD toD : Int) (cust : String) : List LedgerEvent :=
  let invEvents := ((filterInvoicesByDate invs fromD toD).filter
      fun i => i.customerName == cust).map fun i =>
    { date := i.invoiceDate, txnType := "Invoice " ++ toString i.invoiceId
      debits := i.totalAmount, credits := 0 }
  let payEvents := (((mergedPayments invs pays).filter fun pi =>
      paymentCustomer pi == some cust).filter fun pi =>
      decide (fromD ≤ pi.1.paymentDate) && decide (pi.1.paymentDate ≤ toD)).map fun pi =>
    { date := pi.1.paymentDate, txnType := "Payment " ++ toString pi.1.paymentId
      debits := 0, credits := pi.1.amount }
  List.insertionSort (fun a b => a.date ≤ b.date) (invEvents ++ payEvents)

/-- Opening balance of a customer (recev.py lines 307-317): invoices
before the window minus merged payments before the window. -/
def ledgerOpeningBalance (invs : List Invoice) (pays : List Payment)
    (fromD : Int) (cust : String) : ℚ :=
  sumBy ((invs.filter fun i => i.customerName == cust).filter
      fun i => decide (i.invoiceDate < fromD)) (fun i => i.totalAmount)
    - sumBy (((mergedPayments invs pays).filter fun pi =>
        paymentCustomer pi == some cust).filter
      fun pi => decide (pi.1.paymentDate < fromD)) (fun pi => pi.1.amount)

/-- Running balances (recev.py lines 318-322): starting from the opening
balance, each event adds its debit and subtracts its credit; one entry per
event. -/
def runningBalances (opening : ℚ) : List LedgerEvent → List ℚ
  | [] => []
  | e :: es => (opening + e.debits - e.credits) :: runningBalances (opening + e.debits - e.credits) es

/-- Customer Ledger Builder `create_customer_ledger`
(recev.py lines 262-328).  When no invoice and no payment of the customer
falls in the window, `ledger_rows` is empty, `pd.DataFrame([])` has no
`Date` column, and `sort_values(by="Date")` on line 305 raises `KeyError`;
that exception is the `Except.error` case here.  Otherwise the rows carry
the running balance. -/
def create_customer_ledger (invs : List Invoice) (pays : List Payment)
    (fromD toD : Int) (cust : String) : Except String (List LedgerRow) :=
  let evs := ledgerEvents invs pays fromD toD cust
  if evs.isEmpty then
    Except.error "KeyError: Date"
  else
    let opening := ledgerOpeningBalance invs pays fromD cust
    Except.ok (List.zipWith
      (fun e rb =>
        { date := e.date, txnType := e.txnType, debits := e.debits
          credits := e.credits, runningBalance := rb })
      evs (runningBalances opening evs))

/-! ### Segment-wise report (recev.py lines 348-432) -/

/-- The three revenue segments (recev.py line 371). -/
inductive Segment where
  | machine
  | parts
  | service
deriving Repr, DecidableEq

/-- The three line kinds per segment (recev.py lines 373-376). -/
inductive SegLine where
  | outstandingAsOn
  | lessPayment
  | balanceOS
deriving Repr, DecidableEq

/-- Revenue of an invoice in one segment. -/
def segRev (seg : Segment) (inv : Invoice) : ℚ :=
  match seg with
  | .machine => inv.machineRevenue
  | .parts => inv.partsRevenue
  | .service => inv.serviceRevenue

/-- The fixed fiscal time buckets (recev.py lines 361-369), as
`(label, start, end)` with dates in `yyyymmdd` form. -/
def timeBuckets : List (String × Int × Int) :=
  [("Older Years", 19000101, 20230331),
   ("FY 23-24 H1", 20230401, 20230930),
   ("FY 23-24 H2", 20231001, 20240331),
   ("FY 24-25 Q1", 20240401, 20240630),
   ("FY 24-25 Q2", 20240701, 20240930),
   ("FY 24-25 Q3", 20241001, 20241231),
   ("FY 24-25 Q4", 20250101, 20250331)]

/-- The company filter applied first (recev.py lines 352-353). -/
def filterCompany (invs : List Invoice) (company : String) : List Invoice :=
  if company == "All Companies" then invs
  else invs.filter fun i => i.companyName == company

/-- The date filter of the payment loop (recev.py lines 391-396): the
merged invoice date and the payment date must both lie in the bucket; an
orphaned payment has a NaN invoice date and fails the comparison. -/
def payInBucket (startD endD : Int) (pi : Payment × Option Invoice) : Bool :=
  match pi.2 with
  | some i =>
    decide (startD ≤ i.invoiceDate) && decide (i.invoiceDate ≤ endD)
      && decide (startD ≤ pi.1.paymentDate) && decide (pi.1.paymentDate ≤ endD)
  | none => false

/-- Proportional share of one merged payment for one segment
(recev.py lines 402-414): `pay_amt * (segment revenue / revenue sum)` when
the invoice's revenue lines sum to a positive amount, else 0. -/
def payShare (seg : Segment) (pi : Payment × Option Invoice) : ℚ :=
  match pi.2 with
  | some i =>
    let invSum := i.machineRevenue + i.partsRevenue + i.serviceRevenue
    if invSum > 0 then pi.1.amount * (segRev seg i / invSum) else 0
  | none => 0

/-- Cell `Outstanding as on Date` (recev.py lines 382-389): the segment's
revenue summed over invoices dated inside the bucket. -/
def segOutCell (seg : Segment) (invs : List Invoice) (startD endD : Int) : ℚ :=
  sumBy (invs.filter fun i =>
    decide (startD ≤ i.invoiceDate) && decide (i.invoiceDate ≤ endD)) (segRev seg)

/-- Cell `Less: Payment Received` (recev.py lines 391-418): proportional
shares summed over merged payments passing the bucket's date filter. -/
def segPayCell (seg : Segment) (merged : List (Payment × Option Invoice))
    (startD endD : Int) : ℚ :=
  sumBy (merged.filter (payInBucket startD endD)) (payShare seg)

/-- One cell of the segment report (recev.py lines 420-430). -/
def segCell (seg : Segment) (line : SegLine) (invs : List Invoice)
    (merged : List (Payment × Option Invoice)) (startD endD : Int) : ℚ :=
  match line with
  | .outstandingAsOn => segOutCell seg invs startD endD
  | .lessPayment => segPayCell seg merged startD endD
  | .balanceOS => segOutCell seg invs startD endD - segPayCell seg merged startD endD

/-- Row keys of the segment report in order (recev.py lines 372-376). -/
def segRowKeys : List (Segment × SegLine) :=
  [(.machine, .outstandingAsOn), (.machine, .lessPayment), (.machine, .balanceOS),
   (.parts, .outstandingAsOn), (.parts, .lessPayment), (.parts, .balanceOS),
   (.service, .outstandingAsOn), (.service, .lessPayment), (.service, .balanceOS)]

/-- Segment-Period Allocator `create_segment_wise_report`
(recev.py lines 348-432): after the company filter and the left merge, one
row per `(segment, line)` key holding the labelled cell per time bucket. -/
def create_segment_wise_report (invs : List Invoice) (pays : List Payment)
    (company : String) : List ((Segment × SegLine) × List (String × ℚ)) :=
  let invs2 := filterCompany invs company
  let merged := mergedPayments invs2 pays
  segRowKeys.map fun k =>
    (k, timeBuckets.map fun tb => (tb.1, segCell k.1 k.2 invs2 merged tb.2.1 tb.2.2))

/-! ### Shared helper lemmas -/

@[simp]
lemma sumBy_nil {α : Type} (f : α → ℚ) : sumBy ([] : List α) f = 0 := rfl

@[simp]
lemma sumBy_cons {α : Type} (x : α) (xs : List α) (f : α → ℚ) :
    sumBy (x :: xs) f = f x + sumBy xs f := by
  simp [sumBy]

/-! ### Concrete sample records used by witnesses -/

/-- Sample invoice: total 1000, revenue split (400, 300, 300), due end of
January 2024 (Scenario A of the spec). -/
def invA : Invoice :=
  { invoiceId := 1, customerId := "CU1", customerName := "Acme"
    companyName := "SVP", branch := "Main"
    invoiceDate := 20240110, dueDate := some 20240131
    totalAmount := 1000, machineRevenue := 400, partsRevenue := 300, serviceRevenue := 300 }

/-- Sample payment of 500 against `invA`. -/
def payA : Payment :=
  { paymentId := 1, invoiceId := 1, paymentDate := 20240115, amount := 500 }

/-- Sample invoice whose revenue lines sum to 200 while the total is 100:
the breakdown is out of step with the total, which the data model allows. -/
def invMismatch : Invoice :=
  { invoiceId := 2, customerId := "CU2", customerName := "Bolt"
    companyName := "SVP", branch := "Main"
    invoiceDate := 20240110, dueDate := some 20240131
    totalAmount := 100, machineRevenue := 200, partsRevenue := 0, serviceRevenue := 0 }

/-- Sample payment of 50 against `invMismatch`. -/
def payMismatch : Payment :=
  { paymentId := 2, invoiceId := 2, paymentDate := 20240115, amount := 50 }

/-! ### C6: aging classifier boundaries -/

/-- C6: the Aging Classifier maps `days_past_due` exactly by boundary:
days ≤ 0 (including negative) to `Current`; 1..30 to `1-30 Days`; 31..60 to
`31-60 Days`; 61..90 to `61-90 Days`; days > 90 to `90+ Days`; and a
missing due date is treated as 0 days past due, mapping to `Current`. -/
theorem aging_classifier_boundaries :
    (∀ d : Int, d ≤ 0 → aging_bucket d = "Current")
    ∧ (∀ d : Int, 1 ≤ d → d ≤ 30 → aging_bucket d = "1-30 Days")
    ∧ (∀ d : Int, 31 ≤ d → d ≤ 60 → aging_bucket d = "31-60 Days")
    ∧ (∀ d : Int, 61 ≤ d → d ≤ 90 → aging_bucket d = "61-90 Days")
    ∧ (∀ d : Int, 90 < d → aging_bucket d = "90+ Days")
    ∧ (∀ today : Int, daysPastDue today none = 0)
    ∧ (∀ (today : Int) (inv : Invoice), inv.dueDate = none → invBucket today inv = "Current") := by
  refine ⟨?_, ?_, ?_, ?_, ?_, ?_, ?_⟩
  · intro d h
    simp [aging_bucket, h]
  · intro d h1 h2
    have h0 : ¬ d ≤ 0 := by omega
    simp [aging_bucket, h0, h2]
  · intro d h1 h2
    have h0 : ¬ d ≤ 0 := by omega
    have h30 : ¬ d ≤ 30 := by omega
    simp [aging_bucket, h0, h30, h2]
  · intro d h1 h2
    have h0 : ¬ d ≤ 0 := by omega
    have h30 : ¬ d ≤ 30 := by omega
    have h60 : ¬ d ≤ 60 := by omega
    simp [aging_bucket, h0, h30, h60, h2]
  · intro d h
    have h0 : ¬ d ≤ 0 := by omega
    have h30 : ¬ d ≤ 30 := by omega
    have h60 : ¬ d ≤ 60 := by omega
    have h90 : ¬ d ≤ 90 := by omega
    simp [aging_bucket, h0, h30, h60, h90]
  · intro today
    rfl
  · intro today inv h
    simp [invBucket, daysPastDue, h, aging_bucket]

/-- Witness for C6: the classifier evaluated at the boundary days named by
the spec, and at an invoice with a missing due date. -/
theorem aging_classifier_boundaries_witness :
    aging_bucket 0 = "Current" ∧ aging_bucket 30 = "1-30 Days"
    ∧ aging_bucket 31 = "31-60 Days" ∧ aging_bucket 90 = "61-90 Days"
    ∧ aging_bucket 91 = "90+ Days" ∧ daysPastDue 20240101 none = 0
    ∧ invBucket 20240101 { invA with dueDate := none } = "Current" :=
  ⟨aging_classifier_boundaries.1 0 (by norm_num),
   aging_classifier_boundaries.2.1 30 (by norm_num) (by norm_num),
   aging_classifier_boundaries.2.2.1 31 (by norm_num) (by norm_num),
   aging_classifier_boundaries.2.2.2.1 90 (by norm_num) (by norm_num),
   aging_classifier_boundaries.2.2.2.2.1 91 (by norm_num),
   aging_classifier_boundaries.2.2.2.2.2.1 20240101,
   aging_classifier_boundaries.2.2.2.2.2.2 20240101 _ rfl⟩

/-! ### C7: allocator fallback on non-positive totals -/

/-- C7: for every invoice with `total_amount ≤ 0` the Proportional
Allocator returns the raw revenue triple unchanged, regardless of the paid
amount. -/
theorem allocator_fallback (total paid m p s : ℚ) (h : total ≤ 0) :
    distributePartPayments total paid m p s = (m, p, s) := by
  simp [distributePartPayments, h]

/-- Witness for C7, Scenario B of the spec: total 0, revenue (100, 0, 0),
payment 50 yields (100, 0, 0). -/
theorem allocator_fallback_witness :
    (0 : ℚ) ≤ 0 ∧ distributePartPayments 0 50 100 0 0 = (100, 0, 0) :=
  ⟨le_refl 0, allocator_fallback 0 50 100 0 0 (le_refl 0)⟩

/-! ### C1: line reconciliation of the proportional allocator -/

/-- Counterexample to C1 as stated: the claim quantifies over all values of
the revenue breakdown, but for the invoice `invMismatch` (total 100,
breakdown (200, 0, 0)) with 50 paid to date, the allocator's three outputs
sum to 100 while `total_amount - PaidToDate = 50`. -/
theorem line_reconciliation_cex :
    0 < invMismatch.totalAmount
    ∧ paidToDate [payMismatch] 20240201 invMismatch.invoiceId = 50
    ∧ (invAlloc [payMismatch] 20240201 invMismatch).1
        + (invAlloc [payMismatch] 20240201 invMismatch).2.1
        + (invAlloc [payMismatch] 20240201 invMismatch).2.2
      ≠ invMismatch.totalAmount - paidToDate [payMismatch] 20240201 invMismatch.invoiceId := by
  refine ⟨by norm_num [invMismatch], ?_, ?_⟩
  · simp +decide [paidToDate, sumBy, invMismatch, payMismatch]
  · simp +decide [invAlloc, distributePartPayments, paidToDate, sumBy, invMismatch, payMismatch]
    norm_num

/-- C1 (amended): for every invoice with `total_amount > 0` whose revenue
breakdown sums to the total, and any `PaidToDate` amount, the allocator's
three outputs sum to `total_amount - PaidToDate`, i.e. to `Outstanding`. -/
theorem line_reconciliation (pays : List Payment) (today : Int) (inv : Invoice)
    (hpos : 0 < inv.totalAmount)
    (hsum : inv.machineRevenue + inv.partsRevenue + inv.serviceRevenue = inv.totalAmount) :
    (invAlloc pays today inv).1 + (invAlloc pays today inv).2.1 + (invAlloc pays today inv).2.2
      = invOutstanding pays today inv := by
  have ht : inv.totalAmount ≠ 0 := ne_of_gt hpos
  unfold invAlloc distributePartPayments invOutstanding
  rw [if_neg (not_le.mpr hpos)]
  calc (inv.machineRevenue - paidToDate pays today inv.invoiceId * (inv.machineRevenue / inv.totalAmount))
          + (inv.partsRevenue - paidToDate pays today inv.invoiceId * (inv.partsRevenue / inv.totalAmount))
          + (inv.serviceRevenue - paidToDate pays today inv.invoiceId * (inv.serviceRevenue / inv.totalAmount))
        = (inv.machineRevenue + inv.partsRevenue + inv.serviceRevenue)
            - paidToDate pays today inv.invoiceId
              * ((inv.machineRevenue + inv.partsRevenue + inv.serviceRevenue) / inv.totalAmount) := by
          ring
      _ = inv.totalAmount - paidToDate pays today inv.invoiceId * (inv.totalAmount / inv.totalAmount) := by
          rw [hsum]
      _ = inv.totalAmount - paidToDate pays today inv.invoiceId := by
          rw [div_self ht, mul_one]

/-- Witness for the amended C1, Scenario A of the spec: invoice total 1000
split (400, 300, 300), payment 500 before the cutoff, so the line
outstandings sum to the outstanding 500. -/
theorem line_reconciliation_witness :
    (invAlloc [payA] 20240201 invA).1 + (invAlloc [payA] 20240201 invA).2.1
      + (invAlloc [payA] 20240201 invA).2.2 = invOutstanding [payA] 20240201 invA :=
  line_reconciliation [payA] 20240201 invA (by norm_num [invA]) (by norm_num [invA])

/-! ### C2: aggregate reconciliation of the receivables report -/

/-- Every classifier output is one of the five bucket labels. -/
lemma invBucket_mem (today : Int) (i : Invoice) :
    invBucket today i = "Current" ∨ invBucket today i = "1-30 Days"
    ∨ invBucket today i = "31-60 Days" ∨ invBucket today i = "61-90 Days"
    ∨ invBucket today i = "90+ Days" := by
  unfold invBucket aging_bucket
  split_ifs <;> simp

/-- Unfolding one invoice out of an aging cell. -/
lemma bucketSum_cons (pays : List Payment) (today : Int) (i : Invoice)
    (rest : List Invoice) (b : String) :
    bucketSum pays today (i :: rest) b
      = (if invBucket today i = b then invOutstanding pays today i else 0)
        + bucketSum pays today rest b := by
  by_cases h : invBucket today i = b
  · simp [bucketSum, List.filter_cons, h]
  · simp [bucketSum, List.filter_cons, h]

/-- Partitioning the outstanding of a group of invoices across the five
aging cells: each invoice is classified into exactly one bucket. -/
lemma sumBy_bucket_partition (pays : List Payment) (today : Int) (grp : List Invoice) :
    sumBy grp (invOutstanding pays today)
      = bucketSum pays today grp "Current" + bucketSum pays today grp "1-30 Days"
        + bucketSum pays today grp "31-60 Days" + bucketSum pays today grp "61-90 Days"
        + bucketSum pays today grp "90+ Days" := by
  induction grp with
  | nil => simp [bucketSum]
  | cons i rest ih =>
    rw [sumBy_cons, ih, bucketSum_cons, bucketSum_cons, bucketSum_cons, bucketSum_cons,
      bucketSum_cons]
    rcases invBucket_mem today i with h | h | h | h | h <;> rw [h] <;> simp +decide <;> ring

/-- An aging cell over a group with no invoice in that bucket is the empty
sum. -/
lemma bucketSum_absent (pays : List Payment) (today : Int) (grp : List Invoice)
    (b : String) (h : ∀ i ∈ grp, invBucket today i ≠ b) :
    bucketSum pays today grp b = 0 := by
  unfold bucketSum
  rw [List.filter_eq_nil_iff.mpr (by intro i hi; simpa using h i hi)]
  rfl

/-- C2: for every row of the Receivables report, with any collections, date
range and grouping key, Total OS equals the sum of the five aging cells;
and a bucket with no invoice in the row's group shows a 0 cell. -/
theorem recv_aggregate_reconciliation (invs : List Invoice) (pays : List Payment)
    (fromD toD today : Int) (gb : GroupBy) :
    (∀ row ∈ create_receivables_report invs pays fromD toD today gb,
      row.totalOS = row.current + row.d1_30 + row.d31_60 + row.d61_90 + row.d90plus)
    ∧ (∀ (g : String) (grp : List Invoice),
        ((∀ i ∈ grp, invBucket today i ≠ "Current") → (mkRecRow pays today g grp).current = 0)
        ∧ ((∀ i ∈ grp, invBucket today i ≠ "1-30 Days") → (mkRecRow pays today g grp).d1_30 = 0)
        ∧ ((∀ i ∈ grp, invBucket today i ≠ "31-60 Days") → (mkRecRow pays today g grp).d31_60 = 0)
        ∧ ((∀ i ∈ grp, invBucket today i ≠ "61-90 Days") → (mkRecRow pays today g grp).d61_90 = 0)
        ∧ ((∀ i ∈ grp, invBucket today i ≠ "90+ Days") → (mkRecRow pays today g grp).d90plus = 0)) := by
  constructor
  · intro row hrow
    unfold create_receivables_report at hrow
    cases hgb : groupKey gb with
    | none =>
      rw [hgb] at hrow
      simp only [List.mem_singleton] at hrow
      subst hrow
      exact sumBy_bucket_partition pays today _
    | some key =>
      rw [hgb] at hrow
      simp only [List.mem_map] at hrow
      obtain ⟨g, _, hg⟩ := hrow
      subst hg
      exact sumBy_bucket_partition pays today _
  · intro g grp
    exact ⟨bucketSum_absent pays today grp _, bucketSum_absent pays today grp _,
      bucketSum_absent pays today grp _, bucketSum_absent pays today grp _,
      bucketSum_absent pays today grp _⟩

/-- Witness for C2: the Grand Total row over the sample invoice reconciles,
and every aging cell of an empty group is 0. -/
theorem recv_aggregate_reconciliation_witness :
    ((mkRecRow [payA] 20240201 "Grand Total" (filterInvoicesByDate [invA] 20240101 20241231)).totalOS
      = (mkRecRow [payA] 20240201 "Grand Total" (filterInvoicesByDate [invA] 20240101 20241231)).current
        + (mkRecRow [payA] 20240201 "Grand Total" (filterInvoicesByDate [invA] 20240101 20241231)).d1_30
        + (mkRecRow [payA] 20240201 "Grand Total" (filterInvoicesByDate [invA] 20240101 20241231)).d31_60
        + (mkRecRow [payA] 20240201 "Grand Total" (filterInvoicesByDate [invA] 20240101 20241231)).d61_90
        + (mkRecRow [payA] 20240201 "Grand Total" (filterInvoicesByDate [invA] 20240101 20241231)).d90plus)
    ∧ (mkRecRow [payA] 20240201 "G" []).current = 0 := by
  constructor
  · exact (recv_aggregate_reconciliation [invA] [payA] 20240101 20241231 20240201 GroupBy.grandTotal).1
      _ (by simp [create_receivables_report, groupKey])
  · exact ((recv_aggregate_reconciliation [invA] [payA] 20240101 20241231 20240201 GroupBy.grandTotal).2
      "G" []).1 (by simp)

/-! ### C3: banker report balances -/

/-- Summing after two successive filters equals summing after the combined
filter (the shape `groupby` after a date slice takes versus the per-customer
formula of the spec). -/
lemma sumBy_filter_filter {α : Type} (l : List α) (p q : α → Bool) (f : α → ℚ) :
    sumBy ((l.filter p).filter q) f = sumBy (l.filter fun a => q a && p a) f := by
  induction l with
  | nil => rfl
  | cons x xs ih =>
    by_cases hp : p x <;> by_cases hq : q x <;>
      simp [List.filter_cons, hp, hq, ih]

/-- Specification formula (§4.5): `OpeningInvoices` of a customer is the
sum of that customer's invoice totals dated strictly before the window. -/
def openingInvoicesSpec (invs : List Invoice) (fromD : Int) (c : String) : ℚ :=
  sumBy (invs.filter fun i => i.customerName == c && decide (i.invoiceDate < fromD))
    (fun i => i.totalAmount)

/-- Specification formula (§4.5): `OpeningPayments` of a customer is the
sum of that customer's joined payment amounts dated strictly before the
window. -/
def openingPaymentsSpec (invs : List Invoice) (pays : List Payment)
    (fromD : Int) (c : String) : ℚ :=
  sumBy ((mergedPayments invs pays).filter fun pi =>
      paymentCustomer pi == some c && decide (pi.1.paymentDate < fromD))
    (fun pi => pi.1.amount)

/-- Specification formula (§4.5): `DebitsInRange` of a customer. -/
def debitsInRangeSpec (invs : List Invoice) (fromD toD : Int) (c : String) : ℚ :=
  sumBy (invs.filter fun i => i.customerName == c
      && (decide (fromD ≤ i.invoiceDate) && decide (i.invoiceDate ≤ toD)))
    (fun i => i.totalAmount)

/-- Specification formula (§4.5): `CreditsInRange` of a customer. -/
def creditsInRangeSpec (invs : List Invoice) (pays : List Payment)
    (fromD toD : Int) (c : String) : ℚ :=
  sumBy ((mergedPayments invs pays).filter fun pi =>
      paymentCustomer pi == some c
      && (decide (fromD ≤ pi.1.paymentDate) && decide (pi.1.paymentDate ≤ toD)))
    (fun pi => pi.1.amount)

lemma invBeforeSum_eq_spec (invs : List Invoice) (fromD : Int) (c : String) :
    invBeforeSum invs fromD c = openingInvoicesSpec invs fromD c :=
  sumBy_filter_filter invs _ _ _

lemma payBeforeSum_eq_spec (invs : List Invoice) (pays : List Payment)
    (fromD : Int) (c : String) :
    payBeforeSum invs pays fromD c = openingPaymentsSpec invs pays fromD c :=
  sumBy_filter_filter (mergedPayments invs pays) _ _ _

lemma invRangeSum_eq_spec (invs : List Invoice) (fromD toD : Int) (c : String) :
    invRangeSum invs fromD toD c = debitsInRangeSpec invs fromD toD c :=
  sumBy_filter_filter invs _ _ _

lemma payRangeSum_eq_spec (invs : List Invoice) (pays : List Payment)
    (fromD toD : Int) (c : String) :
    payRangeSum invs pays fromD toD c = creditsInRangeSpec invs pays fromD toD c :=
  sumBy_filter_filter (mergedPayments invs pays) _ _ _

/-- Membership in the customer union of the banker report: exactly the
customers appearing in one of the four slices. -/
lemma bankerCustomers_mem (invs : List Invoice) (pays : List Payment)
    (fromD toD : Int) (c : String) :
    c ∈ bankerCustomers invs pays fromD toD ↔
      ((∃ i ∈ invs, i.customerName = c ∧ i.invoiceDate < fromD)
       ∨ (∃ pi ∈ mergedPayments invs pays, paymentCustomer pi = some c
            ∧ pi.1.paymentDate < fromD)
       ∨ (∃ i ∈ invs, i.customerName = c ∧ fromD ≤ i.invoiceDate ∧ i.invoiceDate ≤ toD)
       ∨ (∃ pi ∈ mergedPayments invs pays, paymentCustomer pi = some c
            ∧ fromD ≤ pi.1.paymentDate ∧ pi.1.paymentDate ≤ toD)) := by
  unfold bankerCustomers sortStrings filterInvoicesByDate
  simp only [List.mem_insertionSort, List.mem_dedup, List.mem_append, List.mem_map,
    List.mem_filterMap, List.mem_filter, Bool.and_eq_true, decide_eq_true_eq]
  constructor
  · rintro (((⟨i, ⟨hi, hd⟩, hc⟩ | ⟨pi, ⟨hpi, hd⟩, hc⟩) | ⟨i, ⟨hi, hd1, hd2⟩, hc⟩) | ⟨pi, ⟨hpi, hd⟩, hc⟩)
    · exact Or.inl ⟨i, hi, hc, hd⟩
    · exact Or.inr (Or.inl ⟨pi, hpi, hc, hd⟩)
    · exact Or.inr (Or.inr (Or.inl ⟨i, hi, hc, hd1, hd2⟩))
    · exact Or.inr (Or.inr (Or.inr ⟨pi, hpi, hc, hd.1, hd.2⟩))
  · rintro (⟨i, hi, hc, hd⟩ | ⟨pi, hpi, hc, hd⟩ | ⟨i, hi, hc, hd1, hd2⟩ | ⟨pi, hpi, hc, hd1, hd2⟩)
    · exact Or.inl (Or.inl (Or.inl ⟨i, ⟨hi, hd⟩, hc⟩))
    · exact Or.inl (Or.inl (Or.inr ⟨pi, ⟨hpi, hd⟩, hc⟩))
    · exact Or.inl (Or.inr ⟨i, ⟨hi, hd1, hd2⟩, hc⟩)
    · exact Or.inr ⟨pi, ⟨hpi, hd1, hd2⟩, hc⟩

/-- C3: the Banker report lists the union of the four slices' customers
sorted lexicographically, one row per customer, with
`OpeningBalance = OpeningInvoices - OpeningPayments` and
`Balance = OpeningBalance + DebitsInRange - CreditsInRange`; a customer
absent from a slice contributes the empty sum 0 for that slice. -/
theorem banker_balance_formula (invs : List Invoice) (pays : List Payment) (fromD toD : Int) :
    create_banker_report invs pays fromD toD
        = (bankerCustomers invs pays fromD toD).map (bankerRowFor invs pays fromD toD)
    ∧ List.Sorted (· ≤ ·) ((create_banker_report invs pays fromD toD).map fun r => r.customerName)
    ∧ (∀ c : String, c ∈ (create_banker_report invs pays fromD toD).map (fun r => r.customerName) ↔
        ((∃ i ∈ invs, i.customerName = c ∧ i.invoiceDate < fromD)
         ∨ (∃ pi ∈ mergedPayments invs pays, paymentCustomer pi = some c
              ∧ pi.1.paymentDate < fromD)
         ∨ (∃ i ∈ invs, i.customerName = c ∧ fromD ≤ i.invoiceDate ∧ i.invoiceDate ≤ toD)
         ∨ (∃ pi ∈ mergedPayments invs pays, paymentCustomer pi = some c
              ∧ fromD ≤ pi.1.paymentDate ∧ pi.1.paymentDate ≤ toD)))
    ∧ (∀ c : String,
        (bankerRowFor invs pays fromD toD c).customerName = c
        ∧ (bankerRowFor invs pays fromD toD c).openingBalance
            = openingInvoicesSpec invs fromD c - openingPaymentsSpec invs pays fromD c
        ∧ (bankerRowFor invs pays fromD toD c).debits = debitsInRangeSpec invs fromD toD c
        ∧ (bankerRowFor invs pays fromD toD c).credits = creditsInRangeSpec invs pays fromD toD c
        ∧ (bankerRowFor invs pays fromD toD c).balance
            = (bankerRowFor invs pays fromD toD c).openingBalance
              + (bankerRowFor invs pays fromD toD c).debits
              - (bankerRowFor invs pays fromD toD c).credits) := by
  have hmap : (create_banker_report invs pays fromD toD).map (fun r => r.customerName)
      = bankerCustomers invs pays fromD toD := by
    unfold create_banker_report
    rw [List.map_map]
    have hcomp : ((fun r : BankerRow => r.customerName) ∘ bankerRowFor invs pays fromD toD)
        = fun c => c := by
      funext c
      rfl
    rw [hcomp]
    exact List.map_id _
  refine ⟨rfl, ?_, ?_, ?_⟩
  · rw [hmap]
    exact List.sorted_insertionSort _ _
  · intro c
    rw [hmap]
    exact bankerCustomers_mem invs pays fromD toD c
  · intro c
    refine ⟨rfl, ?_, ?_, ?_, rfl⟩
    · show invBeforeSum invs fromD c - payBeforeSum invs pays fromD c = _
      rw [invBeforeSum_eq_spec, payBeforeSum_eq_spec]
    · exact invRangeSum_eq_spec invs fromD toD c
    · exact payRangeSum_eq_spec invs pays fromD toD c

/-! ### C4: ledger running balance and banker consistency -/

lemma sumBy_perm {α : Type} {l l2 : List α} (h : l.Perm l2) (f : α → ℚ) :
    sumBy l f = sumBy l2 f :=
  (h.map f).sum_eq

lemma sumBy_append {α : Type} (l l2 : List α) (f : α → ℚ) :
    sumBy (l ++ l2) f = sumBy l f + sumBy l2 f := by
  simp [sumBy]

lemma sumBy_map {α β : Type} (l : List α) (g : α → β) (f : β → ℚ) :
    sumBy (l.map g) f = sumBy l (fun a => f (g a)) := by
  simp [sumBy, List.map_map, Function.comp_def]

/-- Summing after two successive filters does not depend on the filter
order. -/
lemma sumBy_filter_comm {α : Type} (l : List α) (p q : α → Bool) (f : α → ℚ) :
    sumBy ((l.filter p).filter q) f = sumBy ((l.filter q).filter p) f := by
  rw [sumBy_filter_filter, sumBy_filter_filter]
  congr 1
  apply List.filter_congr
  intro a _
  exact Bool.and_comm _ _

/-- The running-balance column is empty only for an empty event list. -/
lemma runningBalances_ne_nil (opening : ℚ) (e : LedgerEvent) (es : List LedgerEvent) :
    runningBalances opening (e :: es) ≠ [] := by
  simp [runningBalances]

lemma runningBalances_length (opening : ℚ) (evs : List LedgerEvent) :
    (runningBalances opening evs).length = evs.length := by
  induction evs generalizing opening with
  | nil => rfl
  | cons e es ih => simp [runningBalances, ih]

/-- The last running balance is the opening balance plus all debits minus
all credits. -/
lemma runningBalances_getLast (opening : ℚ) (evs : List LedgerEvent) (h : evs ≠ []) :
    (runningBalances opening evs).getLast?
      = some (opening + sumBy evs (fun e => e.debits) - sumBy evs (fun e => e.credits)) := by
  induction evs generalizing opening with
  | nil => exact absurd rfl h
  | cons e es ih =>
    cases es with
    | nil =>
      simp [runningBalances]
    | cons e2 es2 =>
      rw [runningBalances, List.getLast?_cons, ih _ (by simp)]
      simp only [Option.getD_some, Option.some.injEq, sumBy_cons]
      ring

/-- Total debits of the ledger events are the customer's invoice totals in
range, i.e. the banker report's `Debits (Invoices)`. -/
lemma ledger_debits_eq (invs : List Invoice) (pays : List Payment)
    (fromD toD : Int) (cust : String) :
    sumBy (ledgerEvents invs pays fromD toD cust) (fun e => e.debits)
      = invRangeSum invs fromD toD cust := by
  unfold ledgerEvents invRangeSum
  rw [sumBy_perm (List.perm_insertionSort _ _) _, sumBy_append, sumBy_map, sumBy_map]
  simp [sumBy]

/-- Total credits of the ledger events are the customer's joined payment
amounts in range, i.e. the banker report's `Credits (Payments)`. -/
lemma ledger_credits_eq (invs : List Invoice) (pays : List Payment)
    (fromD toD : Int) (cust : String) :
    sumBy (ledgerEvents invs pays fromD toD cust) (fun e => e.credits)
      = payRangeSum invs pays fromD toD cust := by
  unfold ledgerEvents payRangeSum
  rw [sumBy_perm (List.perm_insertionSort _ _) _, sumBy_append, sumBy_map, sumBy_map]
  rw [sumBy_filter_comm]
  simp [sumBy]

/-- The ledger's opening balance is the banker report's opening balance. -/
lemma ledger_opening_eq (invs : List Invoice) (pays : List Payment)
    (fromD : Int) (cust : String) :
    ledgerOpeningBalance invs pays fromD cust
      = invBeforeSum invs fromD cust - payBeforeSum invs pays fromD cust := by
  unfold ledgerOpeningBalance invBeforeSum payBeforeSum
  congr 1
  · exact sumBy_filter_comm _ _ _ _
  · exact sumBy_filter_comm _ _ _ _

/-- Mapping a projection over the zip of events with their balances
recovers the balances. -/
lemma map_runningBalance_zip (evs : List LedgerEvent) (rbs : List ℚ)
    (h : evs.length = rbs.length) :
    (List.zipWith
        (fun (e : LedgerEvent) (rb : ℚ) =>
          ({ date := e.date, txnType := e.txnType, debits := e.debits
             credits := e.credits, runningBalance := rb } : LedgerRow))
        evs rbs).map (fun r => r.runningBalance) = rbs := by
  induction evs generalizing rbs with
  | nil =>
    cases rbs with
    | nil => rfl
    | cons b bs => simp at h
  | cons e es ih =>
    cases rbs with
    | nil => simp at h
    | cons b bs =>
      simp only [List.zipWith_cons_cons, List.map_cons]
      rw [ih bs (by simpa using h)]

/-- C4: the Customer Ledger's running balance after the last event equals
the opening balance plus all debits minus all credits, and this value
equals the Balance the Banker report computes for the same customer and
date range on the same collections. -/
theorem ledger_consistency (invs : List Invoice) (pays : List Payment)
    (fromD toD : Int) (cust : String)
    (rows : List LedgerRow)
    (hok : create_customer_ledger invs pays fromD toD cust = Except.ok rows) :
    (rows.map (fun r => r.runningBalance)).getLast?
      = some (ledgerOpeningBalance invs pays fromD cust
          + sumBy (ledgerEvents invs pays fromD toD cust) (fun e => e.debits)
          - sumBy (ledgerEvents invs pays fromD toD cust) (fun e => e.credits))
    ∧ (rows.map (fun r => r.runningBalance)).getLast?
        = some ((bankerRowFor invs pays fromD toD cust).balance) := by
  unfold create_customer_ledger at hok
  by_cases hne : (ledgerEvents invs pays fromD toD cust).isEmpty
  · rw [if_pos hne] at hok
    exact absurd hok (by simp)
  · rw [if_neg hne] at hok
    have hrows : rows = List.zipWith
        (fun (e : LedgerEvent) (rb : ℚ) =>
          ({ date := e.date, txnType := e.txnType, debits := e.debits
             credits := e.credits, runningBalance := rb } : LedgerRow))
        (ledgerEvents invs pays fromD toD cust)
        (runningBalances (ledgerOpeningBalance invs pays fromD cust)
          (ledgerEvents invs pays fromD toD cust)) := by
      injection hok with h
      exact h.symm
    have hlen : (ledgerEvents invs pays fromD toD cust).length
        = (runningBalances (ledgerOpeningBalance invs pays fromD cust)
            (ledgerEvents invs pays fromD toD cust)).length :=
      (runningBalances_length _ _).symm
    have hne2 : ledgerEvents invs pays fromD toD cust ≠ [] := by
      intro hnil
      rw [hnil] at hne
      exact hne rfl
    have hfirst : (rows.map (fun r => r.runningBalance)).getLast?
        = some (ledgerOpeningBalance invs pays fromD cust
            + sumBy (ledgerEvents invs pays fromD toD cust) (fun e => e.debits)
            - sumBy (ledgerEvents invs pays fromD toD cust) (fun e => e.credits)) := by
      rw [hrows, map_runningBalance_zip _ _ hlen]
      exact runningBalances_getLast _ _ hne2
    refine ⟨hfirst, ?_⟩
    rw [hfirst]
    congr 1
    rw [ledger_debits_eq, ledger_credits_eq, ledger_opening_eq]
    show _ = invBeforeSum invs fromD cust - payBeforeSum invs pays fromD cust
      + invRangeSum invs fromD toD cust - payRangeSum invs pays fromD toD cust
    ring

/-- Witness for C4: the sample customer with invoice 1000 and payment 500
in range has final running balance 500, agreeing with the banker balance. -/
theorem ledger_consistency_witness :
    ((List.zipWith
        (fun (e : LedgerEvent) (rb : ℚ) =>
          ({ date := e.date, txnType := e.txnType, debits := e.debits
             credits := e.credits, runningBalance := rb } : LedgerRow))
        (ledgerEvents [invA] [payA] 20240101 20241231 "Acme")
        (runningBalances (ledgerOpeningBalance [invA] [payA] 20240101 "Acme")
          (ledgerEvents [invA] [payA] 20240101 20241231 "Acme"))).map
      (fun r => r.runningBalance)).getLast?
      = some ((bankerRowFor [invA] [payA] 20240101 20241231 "Acme").balance) := by
  have hne : (ledgerEvents [invA] [payA] 20240101 20241231 "Acme").isEmpty = false := by
    simp +decide [ledgerEvents, mergedPayments, filterInvoicesByDate, paymentCustomer,
      invA, payA]
  have hok : create_customer_ledger [invA] [payA] 20240101 20241231 "Acme"
      = Except.ok (List.zipWith
        (fun (e : LedgerEvent) (rb : ℚ) =>
          ({ date := e.date, txnType := e.txnType, debits := e.debits
             credits := e.credits, runningBalance := rb } : LedgerRow))
        (ledgerEvents [invA] [payA] 20240101 20241231 "Acme")
        (runningBalances (ledgerOpeningBalance [invA] [payA] 20240101 "Acme")
          (ledgerEvents [invA] [payA] 20240101 20241231 "Acme"))) := by
    unfold create_customer_ledger
    simp [hne]
  exact (ledger_consistency [invA] [payA] 20240101 20241231 "Acme" _ hok).2

/-! ### C8: behavior on an empty result set -/

/-- C8 (failing evaluation): with a date range matching no invoice and no
payment of the customer, `create_customer_ledger` does not return a
well-formed empty table: `ledger_rows` is empty, `pd.DataFrame([])` has no
`Date` column, and `sort_values(by="Date")` raises `KeyError` — the
embedded error case. -/
theorem ledger_empty_range_raises :
    create_customer_ledger [invA] [payA] 20250101 20251231 "Acme"
      = Except.error "KeyError: Date" := by
  have he : ledgerEvents [invA] [payA] 20250101 20251231 "Acme" = [] := by
    simp +decide [ledgerEvents, mergedPayments, filterInvoicesByDate, paymentCustomer,
      List.insertionSort, invA, payA]
  unfold create_customer_ledger
  simp [he]

/-! ### C5: segment-report payment bucket policy -/

/-- Summing a filtered list equals summing the guard as a conditional. -/
lemma sumBy_filter_ite {α : Type} (l : List α) (p : α → Bool) (f : α → ℚ) :
    sumBy (l.filter p) f = sumBy l (fun a => if p a then f a else 0) := by
  induction l with
  | nil => rfl
  | cons x xs ih =>
    by_cases hx : p x <;> simp [List.filter_cons, hx, ih]

/-- Specification formula (§4.7) for `PaymentReceived`: sum over merged
payments of the proportional share, guarded by both dates lying in the
bucket and by a positive revenue-line sum. -/
def segPaySpec (seg : Segment) (merged : List (Payment × Option Invoice))
    (startD endD : Int) : ℚ :=
  sumBy merged fun pi =>
    match pi.2 with
    | some i =>
      if startD ≤ i.invoiceDate ∧ i.invoiceDate ≤ endD
          ∧ startD ≤ pi.1.paymentDate ∧ pi.1.paymentDate ≤ endD then
        (if i.machineRevenue + i.partsRevenue + i.serviceRevenue > 0 then
          pi.1.amount
            * (segRev seg i / (i.machineRevenue + i.partsRevenue + i.serviceRevenue))
        else 0)
      else 0
    | none => 0

lemma payInBucket_eq_true_iff (startD endD : Int) (p : Payment) (i : Invoice) :
    payInBucket startD endD (p, some i) = true ↔
      (startD ≤ i.invoiceDate ∧ i.invoiceDate ≤ endD
        ∧ startD ≤ p.paymentDate ∧ p.paymentDate ≤ endD) := by
  simp [payInBucket, and_assoc]

lemma payInBucket_false_of_not (startD endD : Int) (p : Payment) (i : Invoice)
    (h : ¬(startD ≤ i.invoiceDate ∧ i.invoiceDate ≤ endD
        ∧ startD ≤ p.paymentDate ∧ p.paymentDate ≤ endD)) :
    payInBucket startD endD (p, some i) = false := by
  cases hb : payInBucket startD endD (p, some i)
  · rfl
  · exact absurd ((payInBucket_eq_true_iff startD endD p i).mp hb) h

/-- The payment cell agrees with the specification formula. -/
lemma segPayCell_eq_spec (seg : Segment) (merged : List (Payment × Option Invoice))
    (startD endD : Int) :
    segPayCell seg merged startD endD = segPaySpec seg merged startD endD := by
  unfold segPayCell segPaySpec
  rw [sumBy_filter_ite]
  congr 1
  funext pi
  obtain ⟨p, oi⟩ := pi
  cases oi with
  | none => simp [payInBucket, payShare]
  | some i =>
    dsimp only
    by_cases hb : payInBucket startD endD (p, some i)
    · rw [if_pos hb, if_pos ((payInBucket_eq_true_iff startD endD p i).mp hb)]
      simp [payShare, segRev]
    · rw [if_neg hb,
        if_neg (fun hc => hb ((payInBucket_eq_true_iff startD endD p i).mpr hc))]

/-- A merged payment failing the bucket filter leaves the cell unchanged. -/
lemma segPayCell_cons_skip (seg : Segment) (pi : Payment × Option Invoice)
    (rest : List (Payment × Option Invoice)) (startD endD : Int)
    (h : payInBucket startD endD pi = false) :
    segPayCell seg (pi :: rest) startD endD = segPayCell seg rest startD endD := by
  simp [segPayCell, List.filter_cons, h]

/-- A merged payment with a zero share leaves the cell unchanged. -/
lemma segPayCell_cons_zero_share (seg : Segment) (pi : Payment × Option Invoice)
    (rest : List (Payment × Option Invoice)) (startD endD : Int)
    (h : payShare seg pi = 0) :
    segPayCell seg (pi :: rest) startD endD = segPayCell seg rest startD endD := by
  by_cases hb : payInBucket startD endD pi
  · simp [segPayCell, List.filter_cons, hb, h]
  · simp [segPayCell, List.filter_cons, hb]

/-- An invoice whose revenue lines sum to 0 yields share 0 for every
segment. -/
lemma payShare_zero_of_revsum_zero (seg : Segment) (p : Payment) (i : Invoice)
    (h : i.machineRevenue + i.partsRevenue + i.serviceRevenue = 0) :
    payShare seg (p, some i) = 0 := by
  simp [payShare, h]

/-- The fiscal buckets are pairwise disjoint: a date inside one labelled
bucket lies inside no differently labelled bucket. -/
lemma timeBuckets_disjoint :
    ∀ tb1 ∈ timeBuckets, ∀ tb2 ∈ timeBuckets, tb1.1 ≠ tb2.1 →
      ∀ d : Int, tb1.2.1 ≤ d → d ≤ tb1.2.2 → ¬(tb2.2.1 ≤ d ∧ d ≤ tb2.2.2) := by
  intro tb1 h1 tb2 h2 hne d hd1 hd2
  fin_cases h1 <;> fin_cases h2 <;> simp_all <;> omega

/-- Bucket labels determine the bucket. -/
lemma timeBuckets_label_inj :
    ∀ tb1 ∈ timeBuckets, ∀ tb2 ∈ timeBuckets, tb1.1 = tb2.1 → tb1 = tb2 := by
  intro tb1 h1 tb2 h2
  fin_cases h1 <;> fin_cases h2 <;> simp_all

/-- C5: in the Segment-Period report the `Less: Payment Received` cells sum
exactly the payments whose invoice date and own payment date both lie in
that bucket, proportionally to the invoice's revenue-line shares; a payment
dated in a different bucket than its invoice contributes to no bucket; and
a payment on an invoice whose revenue lines sum to 0 contributes 0
everywhere. -/
theorem segment_payment_bucket_policy (invs : List Invoice) (pays : List Payment)
    (company : String) :
    (∀ (seg : Segment) (cells : List (String × ℚ)),
      ((seg, SegLine.lessPayment), cells) ∈ create_segment_wise_report invs pays company →
      cells = timeBuckets.map fun tb =>
        (tb.1, segPaySpec seg (mergedPayments (filterCompany invs company) pays) tb.2.1 tb.2.2))
    ∧ (∀ (seg : Segment) (p : Payment) (i : Invoice)
        (rest : List (Payment × Option Invoice))
        (lbl1 lbl2 lbl : String) (s1 e1 s2 e2 s e : Int),
        (lbl1, s1, e1) ∈ timeBuckets → (lbl2, s2, e2) ∈ timeBuckets → lbl1 ≠ lbl2 →
        s1 ≤ i.invoiceDate → i.invoiceDate ≤ e1 →
        s2 ≤ p.paymentDate → p.paymentDate ≤ e2 →
        (lbl, s, e) ∈ timeBuckets →
        segPayCell seg ((p, some i) :: rest) s e = segPayCell seg rest s e)
    ∧ (∀ (seg : Segment) (p : Payment) (i : Invoice)
        (rest : List (Payment × Option Invoice)) (s e : Int),
        i.machineRevenue + i.partsRevenue + i.serviceRevenue = 0 →
        segPayCell seg ((p, some i) :: rest) s e = segPayCell seg rest s e) := by
  refine ⟨?_, ?_, ?_⟩
  · intro seg cells hmem
    unfold create_segment_wise_report at hmem
    simp only [List.mem_map] at hmem
    obtain ⟨k, hk, heq⟩ := hmem
    have hk1 : k = (seg, SegLine.lessPayment) := congrArg Prod.fst heq
    subst hk1
    have hcells : cells = List.map (fun tb =>
        (tb.1, segCell seg SegLine.lessPayment (filterCompany invs company)
          (mergedPayments (filterCompany invs company) pays) tb.2.1 tb.2.2)) timeBuckets :=
      (congrArg Prod.snd heq).symm
    rw [hcells]
    simp only [segCell]
    simp only [segPayCell_eq_spec]
  · intro seg p i rest lbl1 lbl2 lbl s1 e1 s2 e2 s e h1 h2 hne hi1 hi2 hp1 hp2 hb
    apply segPayCell_cons_skip
    apply payInBucket_false_of_not
    intro hcontr
    obtain ⟨q1, q2, q3, q4⟩ := hcontr
    by_cases hl : lbl = lbl1
    · have hbe : ((lbl, s, e) : String × Int × Int) = (lbl1, s1, e1) :=
        timeBuckets_label_inj _ hb _ h1 hl
      have hs : s = s1 := congrArg (fun t => t.2.1) hbe
      have he2 : e = e1 := congrArg (fun t => t.2.2) hbe
      subst hs
      subst he2
      exact timeBuckets_disjoint _ h2 _ h1 (Ne.symm hne) p.paymentDate hp1 hp2 ⟨q3, q4⟩
    · exact timeBuckets_disjoint _ h1 _ hb (fun hx => hl hx.symm) i.invoiceDate hi1 hi2 ⟨q1, q2⟩
  · intro seg p i rest s e h
    exact segPayCell_cons_zero_share seg (p, some i) rest s e
      (payShare_zero_of_revsum_zero seg p i h)

/-- Sample invoice dated in FY 23-24 H1 with revenue split (0, 100, 0). -/
def invB : Invoice :=
  { invoiceId := 5, customerId := "CU3", customerName := "Crux"
    companyName := "SVP", branch := "Main"
    invoiceDate := 20230501, dueDate := some 20230531
    totalAmount := 100, machineRevenue := 0, partsRevenue := 100, serviceRevenue := 0 }

/-- Sample payment against `invB` dated in FY 23-24 H2, a different bucket
than its invoice (Scenario D of the spec). -/
def payB : Payment :=
  { paymentId := 3, invoiceId := 5, paymentDate := 20231101, amount := 40 }

/-- Sample invoice whose three revenue lines sum to 0. -/
def invZero : Invoice :=
  { invoiceId := 6, customerId := "CU4", customerName := "Dorn"
    companyName := "SVP", branch := "Main"
    invoiceDate := 20240501, dueDate := none
    totalAmount := 0, machineRevenue := 0, partsRevenue := 0, serviceRevenue := 0 }

/-- Witness for C5: the payment cells of a concrete report match the
specification formula; the Scenario D payment `payB` (invoice in FY 23-24
H1, payment in FY 23-24 H2) drops out of the FY 24-25 Q1 cell; and a
payment on the zero-revenue invoice contributes nothing. -/
theorem segment_payment_bucket_policy_witness :
    (timeBuckets.map fun tb =>
        (tb.1, segCell Segment.machine SegLine.lessPayment
          (filterCompany [invA] "All Companies")
          (mergedPayments (filterCompany [invA] "All Companies") [payA]) tb.2.1 tb.2.2))
      = (timeBuckets.map fun tb =>
        (tb.1, segPaySpec Segment.machine
          (mergedPayments (filterCompany [invA] "All Companies") [payA]) tb.2.1 tb.2.2))
    ∧ segPayCell Segment.parts [(payB, some invB)] 20240401 20240630
        = segPayCell Segment.parts [] 20240401 20240630
    ∧ segPayCell Segment.machine [(payB, some invZero)] 20230401 20230930
        = segPayCell Segment.machine [] 20230401 20230930 := by
  refine ⟨?_, ?_, ?_⟩
  · exact (segment_payment_bucket_policy [invA] [payA] "All Companies").1 Segment.machine _
      (List.mem_map.mpr ⟨(Segment.machine, SegLine.lessPayment), by simp [segRowKeys], rfl⟩)
  · exact (segment_payment_bucket_policy [invA] [payA] "All Companies").2.1 Segment.parts
      payB invB [] "FY 23-24 H1" "FY 23-24 H2" "FY 24-25 Q1"
      20230401 20230930 20231001 20240331 20240401 20240630
      (by simp [timeBuckets]) (by simp [timeBuckets]) (by decide)
      (by norm_num [invB]) (by norm_num [invB]) (by norm_num [payB]) (by norm_num [payB])
      (by simp [timeBuckets])
  · exact (segment_payment_bucket_policy [invA] [payA] "All Companies").2.2 Segment.machine
      payB invZero [] 20230401 20230930 (by norm_num [invZero])

/-! ### C9: orphaned payments contribute nothing -/

/-- A payment whose invoice id matches no invoice merges to a `none`
partner (NaN invoice columns). -/
lemma merged_cons_none (invs : List Invoice) (pays : List Payment) (p : Payment)
    (h : ∀ i ∈ invs, i.invoiceId ≠ p.invoiceId) :
    mergedPayments invs (p :: pays) = (p, none) :: mergedPayments invs pays := by
  unfold mergedPayments
  rw [List.flatMap_cons]
  have hf : invs.filter (fun i => i.invoiceId == p.invoiceId) = [] := by
    rw [List.filter_eq_nil_iff]
    intro a ha
    simpa using h a ha
  rw [hf]
  rfl

/-- A merged `none` row is dropped by any customer-keyed filter placed
after a date filter. -/
lemma filter_cust_cons_none (p : Payment) (rest : List (Payment × Option Invoice))
    (dateP : Payment × Option Invoice → Bool) (c : String) :
    (((p, none) :: rest).filter dateP).filter (fun pi => paymentCustomer pi == some c)
      = (rest.filter dateP).filter (fun pi => paymentCustomer pi == some c) := by
  by_cases hd : dateP (p, none) <;> simp [List.filter_cons, hd, paymentCustomer]

/-- A merged `none` row is dropped when collecting customer names. -/
lemma filterMap_cust_cons_none (p : Payment) (rest : List (Payment × Option Invoice))
    (dateP : Payment × Option Invoice → Bool) :
    (((p, none) :: rest).filter dateP).filterMap paymentCustomer
      = (rest.filter dateP).filterMap paymentCustomer := by
  by_cases hd : dateP (p, none) <;> simp [List.filter_cons, hd, paymentCustomer]

lemma payBeforeSum_orphan (invs : List Invoice) (pays : List Payment) (p : Payment)
    (fromD : Int) (c : String) (h : ∀ i ∈ invs, i.invoiceId ≠ p.invoiceId) :
    payBeforeSum invs (p :: pays) fromD c = payBeforeSum invs pays fromD c := by
  unfold payBeforeSum
  rw [merged_cons_none invs pays p h, filter_cust_cons_none]

lemma payRangeSum_orphan (invs : List Invoice) (pays : List Payment) (p : Payment)
    (fromD toD : Int) (c : String) (h : ∀ i ∈ invs, i.invoiceId ≠ p.invoiceId) :
    payRangeSum invs (p :: pays) fromD toD c = payRangeSum invs pays fromD toD c := by
  unfold payRangeSum
  rw [merged_cons_none invs pays p h, filter_cust_cons_none]

lemma bankerCustomers_orphan (invs : List Invoice) (pays : List Payment) (p : Payment)
    (fromD toD : Int) (h : ∀ i ∈ invs, i.invoiceId ≠ p.invoiceId) :
    bankerCustomers invs (p :: pays) fromD toD = bankerCustomers invs pays fromD toD := by
  simp only [bankerCustomers]
  rw [merged_cons_none invs pays p h, filterMap_cust_cons_none, filterMap_cust_cons_none]

lemma bankerRowFor_orphan (invs : List Invoice) (pays : List Payment) (p : Payment)
    (fromD toD : Int) (c : String) (h : ∀ i ∈ invs, i.invoiceId ≠ p.invoiceId) :
    bankerRowFor invs (p :: pays) fromD toD c = bankerRowFor invs pays fromD toD c := by
  unfold bankerRowFor
  rw [payBeforeSum_orphan invs pays p fromD c h, payRangeSum_orphan invs pays p fromD toD c h]

lemma create_banker_report_orphan (invs : List Invoice) (pays : List Payment) (p : Payment)
    (fromD toD : Int) (h : ∀ i ∈ invs, i.invoiceId ≠ p.invoiceId) :
    create_banker_report invs (p :: pays) fromD toD
      = create_banker_report invs pays fromD toD := by
  unfold create_banker_report
  rw [bankerCustomers_orphan invs pays p fromD toD h]
  exact List.map_congr_left fun c _ => bankerRowFor_orphan invs pays p fromD toD c h

lemma ledgerEvents_orphan (invs : List Invoice) (pays : List Payment) (p : Payment)
    (fromD toD : Int) (cust : String) (h : ∀ i ∈ invs, i.invoiceId ≠ p.invoiceId) :
    ledgerEvents invs (p :: pays) fromD toD cust = ledgerEvents invs pays fromD toD cust := by
  simp only [ledgerEvents]
  rw [merged_cons_none invs pays p h]
  rfl

lemma ledgerOpeningBalance_orphan (invs : List Invoice) (pays : List Payment) (p : Payment)
    (fromD : Int) (cust : String) (h : ∀ i ∈ invs, i.invoiceId ≠ p.invoiceId) :
    ledgerOpeningBalance invs (p :: pays) fromD cust
      = ledgerOpeningBalance invs pays fromD cust := by
  unfold ledgerOpeningBalance
  rw [merged_cons_none invs pays p h]
  rfl

lemma create_customer_ledger_orphan (invs : List Invoice) (pays : List Payment) (p : Payment)
    (fromD toD : Int) (cust : String) (h : ∀ i ∈ invs, i.invoiceId ≠ p.invoiceId) :
    create_customer_ledger invs (p :: pays) fromD toD cust
      = create_customer_ledger invs pays fromD toD cust := by
  simp only [create_customer_ledger]
  rw [ledgerEvents_orphan invs pays p fromD toD cust h,
    ledgerOpeningBalance_orphan invs pays p fromD cust h]

/-- Appending a merged `none` row changes no cell of the segment report. -/
lemma segCell_cons_none (seg : Segment) (line : SegLine) (invs2 : List Invoice)
    (p : Payment) (rest : List (Payment × Option Invoice)) (startD endD : Int) :
    segCell seg line invs2 ((p, none) :: rest) startD endD
      = segCell seg line invs2 rest startD endD := by
  have hp : segPayCell seg ((p, none) :: rest) startD endD
      = segPayCell seg rest startD endD :=
    segPayCell_cons_skip seg (p, none) rest startD endD rfl
  cases line <;> simp [segCell, hp]

lemma create_segment_wise_report_orphan (invs : List Invoice) (pays : List Payment)
    (p : Payment) (company : String) (h : ∀ i ∈ invs, i.invoiceId ≠ p.invoiceId) :
    create_segment_wise_report invs (p :: pays) company
      = create_segment_wise_report invs pays company := by
  have h2 : ∀ i ∈ filterCompany invs company, i.invoiceId ≠ p.invoiceId := by
    intro i hi
    apply h
    unfold filterCompany at hi
    by_cases hc : (company == "All Companies") = true
    · rw [if_pos hc] at hi
      exact hi
    · rw [if_neg hc] at hi
      exact (List.mem_filter.mp hi).1
  simp only [create_segment_wise_report]
  rw [merged_cons_none (filterCompany invs company) pays p h2]
  simp only [segCell_cons_none]

/-- C9: a payment whose `invoice_id` matches no invoice contributes exactly
0 to every aggregation requiring the invoice join: the Banker report, the
Customer Ledger for any customer, and the Segment-Period report are
unchanged by its presence, and no error is raised. -/
theorem orphan_payment_contributes_zero (invs : List Invoice) (pays : List Payment)
    (p : Payment) (fromD toD : Int) (cust company : String)
    (h : ∀ i ∈ invs, i.invoiceId ≠ p.invoiceId) :
    create_banker_report invs (p :: pays) fromD toD = create_banker_report invs pays fromD toD
    ∧ create_customer_ledger invs (p :: pays) fromD toD cust
        = create_customer_ledger invs pays fromD toD cust
    ∧ create_segment_wise_report invs (p :: pays) company
        = create_segment_wise_report invs pays company :=
  ⟨create_banker_report_orphan invs pays p fromD toD h,
   create_customer_ledger_orphan invs pays p fromD toD cust h,
   create_segment_wise_report_orphan invs pays p company h⟩

/-- Sample orphaned payment: invoice id 999 matches no sample invoice. -/
def payOrphan : Payment :=
  { paymentId := 9, invoiceId := 999, paymentDate := 20240601, amount := 77 }

/-- Witness for C9: adding the orphaned payment to the sample data changes
none of the three reports. -/
theorem orphan_payment_contributes_zero_witness :
    create_banker_report [invA] [payOrphan, payA] 20240101 20241231
        = create_banker_report [invA] [payA] 20240101 20241231
    ∧ create_customer_ledger [invA] [payOrphan, payA] 20240101 20241231 "Acme"
        = create_customer_ledger [invA] [payA] 20240101 20241231 "Acme"
    ∧ create_segment_wise_report [invA] [payOrphan, payA] "All Companies"
        = create_segment_wise_report [invA] [payA] "All Companies" :=
  orphan_payment_contributes_zero [invA] [payA] payOrphan 20240101 20241231 "Acme"
    "All Companies" (by decide)

/-! ### C10: invoices outside the fiscal span -/

/-- Every fiscal bucket lies inside the overall span 1900-01-01 to
2025-03-31. -/
lemma timeBuckets_span :
    ∀ tb ∈ timeBuckets, (19000101 : Int) ≤ tb.2.1 ∧ tb.2.2 ≤ 20250331 := by
  intro tb htb
  fin_cases htb <;> norm_num

/-- An invoice outside a bucket's range drops out of the outstanding cell. -/
lemma segOutCell_cons_skip (seg : Segment) (i : Invoice) (rest : List Invoice)
    (startD endD : Int) (h : ¬(startD ≤ i.invoiceDate ∧ i.invoiceDate ≤ endD)) :
    segOutCell seg (i :: rest) startD endD = segOutCell seg rest startD endD := by
  simp [segOutCell, List.filter_cons, h]

/-- C10: an invoice dated after 2025-03-31 or before 1900-01-01 contributes
to no column of the Segment-Period report: its revenue enters no
Outstanding cell and none of its payments enters any Payment Received
cell, for every bucket of the report. -/
theorem segment_out_of_span_invoice (lbl : String) (s e : Int)
    (htb : (lbl, s, e) ∈ timeBuckets) (i : Invoice)
    (hout : i.invoiceDate < 19000101 ∨ 20250331 < i.invoiceDate) :
    (∀ (seg : Segment) (rest : List Invoice),
      segOutCell seg (i :: rest) s e = segOutCell seg rest s e)
    ∧ (∀ (seg : Segment) (p : Payment) (rest : List (Payment × Option Invoice)),
      segPayCell seg ((p, some i) :: rest) s e = segPayCell seg rest s e) := by
  have hspan : (19000101 : Int) ≤ s ∧ e ≤ 20250331 := timeBuckets_span _ htb
  have hnotin : ¬(s ≤ i.invoiceDate ∧ i.invoiceDate ≤ e) := by
    omega
  constructor
  · intro seg rest
    exact segOutCell_cons_skip seg i rest s e hnotin
  · intro seg p rest
    apply segPayCell_cons_skip
    apply payInBucket_false_of_not
    intro hc
    exact hnotin ⟨hc.1, hc.2.1⟩

/-- Sample invoice dated after the last bucket's end. -/
def invLate : Invoice :=
  { invoiceId := 7, customerId := "CU5", customerName := "Enz"
    companyName := "SVP", branch := "Main"
    invoiceDate := 20250601, dueDate := some 20250630
    totalAmount := 10, machineRevenue := 10, partsRevenue := 0, serviceRevenue := 0 }

/-- Witness for C10: the late-dated invoice leaves the FY 24-25 Q4
outstanding and payment cells unchanged. -/
theorem segment_out_of_span_invoice_witness :
    segOutCell Segment.machine [invLate] 20250101 20250331
        = segOutCell Segment.machine [] 20250101 20250331
    ∧ segPayCell Segment.machine [(payOrphan, some invLate)] 20250101 20250331
        = segPayCell Segment.machine [] 20250101 20250331 :=
  ⟨(segment_out_of_span_invoice "FY 24-25 Q4" 20250101 20250331 (by simp [timeBuckets])
      invLate (by norm_num [invLate])).1 Segment.machine [],
   (segment_out_of_span_invoice "FY 24-25 Q4" 20250101 20250331 (by simp [timeBuckets])
      invLate (by norm_num [invLate])).2 Segment.machine payOrphan []⟩

end Recev
